import Mathlib

/-!
Verification of the eSIM profile management frontend and scripts
(esim-plus). Definitions are shallow embeddings of the JavaScript
helpers in `frontend/src/utils/helpers.js`, the API/auth layer in
`frontend/src/services/api.js`, the React components
`DeployProfile`, `DeviceMigration`, `QRCodeManager`, `ListProfiles`,
and the PowerShell provider-integration module. JavaScript strings
are modelled as Lean `String`, missing/optional JS values as
`Option`, and Date values as epoch milliseconds (`Int`).
-/

namespace ESim

/-! ## helpers.js constants -/

/-- The enumerated status options shown by the UI
(`STATUS_OPTIONS` in helpers.js). -/
def STATUS_OPTIONS : List String :=
  ["created", "deployed", "active", "inactive", "error"]

/-- The provider dropdown values (`PROVIDERS` in helpers.js). -/
def PROVIDERS : List String :=
  ["ATOM", "Ooredoo", "Mytel", "MPT"]

/-- The full lifecycle status set of the spec: the UI options plus the
transient `migrating` status used by `DeviceMigration`. -/
def lifecycleStatusSet : List String :=
  ["created", "deployed", "active", "inactive", "error", "migrating"]

/-! ## helpers.js validateProfile / isValidUrl -/

/-- Input to `validateProfile` (helpers.js). Each field is optional
because the JS object may lack it; an empty string is falsy in JS and
is distinguished from absence by `Option`. -/
structure ProfileInput where
  displayName : Option String
  activationCode : Option String
  smdpServerUrl : Option String
  provider : Option String
  description : Option String
deriving Repr, DecidableEq

/-- The per-field error map produced by `validateProfile`; a `none`
field means the key is absent from the JS `errors` object. -/
structure ProfileErrors where
  displayName : Option String
  activationCode : Option String
  smdpServerUrl : Option String
  provider : Option String
  description : Option String
deriving Repr, DecidableEq

/-- Characters removed by the JS String trim method: whitespace and
line terminators (the ASCII subset; exotic Unicode space characters
are omitted from the model). -/
def isJsWhitespace (c : Char) : Bool :=
  c = ' ' || c = '\t' || c = '\n' || c = '\r' || c = '\x0b' || c = '\x0c'

/-- Model of the JS String trim method used by the validation code:
strips leading and trailing whitespace. -/
def jsTrim (s : String) : String :=
  String.mk
    (((s.data.dropWhile isJsWhitespace).reverse.dropWhile
      isJsWhitespace).reverse)

/-- First character of a URL scheme: an ASCII letter. -/
def isSchemeStartChar (c : Char) : Bool :=
  ('A' ≤ c && c ≤ 'Z') || ('a' ≤ c && c ≤ 'z')

/-- Subsequent characters of a URL scheme. -/
def isSchemeChar (c : Char) : Bool :=
  isSchemeStartChar c || c.isDigit || c = '+' || c = '-' || c = '.'

/-- Split a character list at the first colon: returns the part before
the colon and the part after it, or `none` when there is no colon. -/
def splitScheme : List Char → Option (List Char × List Char)
  | [] => none
  | c :: cs =>
    if c = ':' then some ([], cs)
    else
      match splitScheme cs with
      | some (sch, rest) => some (c :: sch, rest)
      | none => none

/-- URL schemes that the WHATWG parser treats as special and for which
it requires a nonempty host. -/
def specialSchemes : List String := ["http", "https", "ws", "wss", "ftp"]

/-- Model of the JS expression `new URL(string)` succeeding
(helpers.js `isValidUrl`): the string must start with a well-formed
scheme followed by a colon (so bare relative strings such as
"not-a-url" are rejected), and for the special schemes the remainder,
after leading slashes, must begin with a nonempty host. -/
def isValidUrl (s : String) : Bool :=
  match splitScheme s.data with
  | none => false
  | some (sch, rest) =>
    match sch with
    | [] => false
    | c :: cs =>
      isSchemeStartChar c && cs.all isSchemeChar &&
      (if specialSchemes.contains (String.mk (sch.map Char.toLower)) then
        match rest.dropWhile (· = '/') with
        | [] => false
        | h :: _ => !(h = '?' || h = '#')
      else true)

/-- The error map computed by `validateProfile` (helpers.js), field by
field, mirroring the sequence of `if` statements in the source: a
required field missing or blank after trim gets a required-message,
`displayName` longer than 100 characters and `description` longer
than 500 characters get length messages, a present but unparsable
`smdpServerUrl` gets an invalid-URL message, and `provider` is only
checked for JS truthiness (absence or the empty string). -/
def profileErrors (p : ProfileInput) : ProfileErrors where
  displayName :=
    match p.displayName with
    | none => some "Display name is required"
    | some d =>
      if jsTrim d = "" then some "Display name is required"
      else if 100 < d.length then
        some "Display name must be less than 100 characters"
      else none
  activationCode :=
    match p.activationCode with
    | none => some "Activation code is required"
    | some a =>
      if jsTrim a = "" then some "Activation code is required" else none
  smdpServerUrl :=
    match p.smdpServerUrl with
    | none => some "SMDP server URL is required"
    | some u =>
      if jsTrim u = "" then some "SMDP server URL is required"
      else if !isValidUrl u then some "Please enter a valid URL"
      else none
  provider :=
    match p.provider with
    | none => some "Provider is required"
    | some pr => if pr = "" then some "Provider is required" else none
  description :=
    match p.description with
    | none => none
    | some d =>
      if 500 < d.length then
        some "Description must be less than 500 characters"
      else none

/-- Result object of `validateProfile`: `isValid` is true exactly when
the JS `errors` object has no keys. -/
structure ValidationOutcome where
  isValid : Bool
  errors : ProfileErrors
deriving Repr, DecidableEq

/-- `validateProfile` from helpers.js. -/
def validateProfile (p : ProfileInput) : ValidationOutcome :=
  let e := profileErrors p
  { isValid :=
      e.displayName = none && e.activationCode = none &&
      e.smdpServerUrl = none && e.provider = none && e.description = none,
    errors := e }

/-! ## DeployProfile component -/

/-- The profile view the DeployProfile component receives; only the
status field participates in the deploy guard. -/
structure ProfileView where
  status : String
deriving Repr, DecidableEq

/-- The deploy guard of the DeployProfile component:
canDeploy = profile and [created, error].includes(profile.status);
a missing profile (JS null, here `none`) is falsy. -/
def canDeploy (profile : Option ProfileView) : Bool :=
  match profile with
  | none => false
  | some p => ["created", "error"].contains p.status

/-- The DeployProfile component renders the yellow warning box titled
"Profile Cannot Be Deployed" exactly when canDeploy is false (the
component only reaches this point with a profile present, having
early-returned otherwise). -/
def notDeployableWarningShown (p : ProfileView) : Bool :=
  !canDeploy (some p)

/-! ## services/api.js auth layer -/

/-- The current-user object stored by the client: the fields that the
auth and tenant logic reads. -/
structure Actor where
  tenantId : String
  role : String
deriving Repr, DecidableEq

/-- The roleHierarchy lookup table in authAPI.hasPermission:
admin 3, operator 2, viewer 1, any other key absent. -/
def roleHierarchy (role : String) : Option Nat :=
  if role = "admin" then some 3
  else if role = "operator" then some 2
  else if role = "viewer" then some 1
  else none

/-- authAPI.hasPermission (services/api.js): no logged-in user denies;
otherwise userLevel = roleHierarchy[user.role] defaulting to 0,
requiredLevel = roleHierarchy[requiredRole] defaulting to 999, and
the permission holds when userLevel is at least requiredLevel. -/
def hasPermission (user : Option Actor) (requiredRole : String) : Bool :=
  match user with
  | none => false
  | some u =>
    let userLevel := (roleHierarchy u.role).getD 0
    let requiredLevel := (roleHierarchy requiredRole).getD 999
    requiredLevel ≤ userLevel

/-- Modelled from the spec: the backend Access Control Layer decision
is not under src (only the client-side role check
authAPI.hasPermission and the X-Tenant-ID request header are). Per the
spec, Decision = allow iff actor.tenantId equals the target tenantId
and the actor role rank is at least the required role rank; the rank
comparison reuses the embedded hasPermission table. -/
def authorize (actor : Actor) (requiredRole : String)
    (targetTenantId : String) : Bool :=
  (actor.tenantId = targetTenantId) && hasPermission (some actor) requiredRole

/-- The role ranks exactly as the spec words them:
admin 3, operator 2, viewer 1 (defined on those three roles; theorems
restrict to them). -/
def specRoleRank (role : String) : Nat :=
  if role = "admin" then 3 else if role = "operator" then 2 else 1

/-! ## Lifecycle transition function (spec-modelled) -/

/-- The triggers of the lifecycle state machine. -/
inductive LifecycleEvent
  | deploySuccess
  | deployFailure
  | deviceConfirmsInstall
  | failureDetected
  | migrateInitiated
  | migrateSucceeded
  | migrateFailed
  | deactivate
  | reactivate
deriving Repr, DecidableEq

/-- Modelled from the spec: the Lifecycle Engine owning the status
transition function lives in the backend, which is not under src (the
frontend only displays statuses and the scripts only perform external
calls). The allowed transitions follow the spec transition table:
deploy from created/error to deployed or error, device confirmation
deployed to active, failure detection deployed/active to error,
migration deployed/active to migrating then to active or error,
explicit deactivation from any state to inactive, and administrative
reactivation from inactive back to created. A trigger whose guard does
not hold is rejected and leaves the status unchanged. -/
def applyTransition (status : String) (ev : LifecycleEvent) : String :=
  match ev with
  | .deploySuccess =>
    if status = "created" || status = "error" then "deployed" else status
  | .deployFailure =>
    if status = "created" || status = "error" then "error" else status
  | .deviceConfirmsInstall =>
    if status = "deployed" then "active" else status
  | .failureDetected =>
    if status = "deployed" || status = "active" then "error" else status
  | .migrateInitiated =>
    if status = "deployed" || status = "active" then "migrating" else status
  | .migrateSucceeded =>
    if status = "migrating" then "active" else status
  | .migrateFailed =>
    if status = "migrating" then "error" else status
  | .deactivate => "inactive"
  | .reactivate =>
    if status = "inactive" then "created" else status

/-! ## Provider integration module (PowerShell) -/

/-- The four Myanmar telecom providers of the integration module. -/
inductive Provider
  | MPT
  | ATOM
  | OOREDOO
  | MYTEL
deriving Repr, DecidableEq

/-- A character matched by the class [A-Z0-9] under the PowerShell
-match operator, which is case-insensitive: ASCII letters of either
case and digits. -/
def isPatAlnum (c : Char) : Bool :=
  ('A' ≤ c && c ≤ 'Z') || ('a' ≤ c && c ≤ 'z') || c.isDigit

/-- The MPT ValidationPattern: four dash-separated groups of five
[A-Z0-9] characters, anchored at both ends. -/
def mptPatternMatch (s : String) : Bool :=
  match s.splitOn "-" with
  | [a, b, c, d] =>
    [a, b, c, d].all fun g => g.length = 5 && g.data.all isPatAlnum
  | _ => false

/-- The ATOM ValidationPattern: 32 to 64 [A-Z0-9] characters. -/
def atomPatternMatch (s : String) : Bool :=
  32 ≤ s.length && s.length ≤ 64 && s.data.all isPatAlnum

/-- The OOREDOO ValidationPattern: the literal prefix LPA:1$ (with the
dollar escaped in the source regex) followed by anything; the regex
has no end anchor, so only the case-insensitive prefix matters. -/
def ooredooPatternMatch (s : String) : Bool :=
  (s.data.take 6).map Char.toUpper = "LPA:1$".data

/-- The MYTEL ValidationPattern: 20 to 50 characters drawn from
[A-Z0-9-], anchored at both ends. -/
def mytelPatternMatch (s : String) : Bool :=
  20 ≤ s.length && s.length ≤ 50 &&
    s.data.all fun c => isPatAlnum c || c = '-'

/-- The per-provider local format check
($ActivationCode -notmatch $config.ValidationPattern negated). -/
def validationPatternMatch : Provider → String → Bool
  | .MPT, s => mptPatternMatch s
  | .ATOM, s => atomPatternMatch s
  | .OOREDOO, s => ooredooPatternMatch s
  | .MYTEL, s => mytelPatternMatch s

/-- The shape of a provider validation response assembled by the
Invoke-XXXValidation functions. -/
structure ProviderResult where
  success : Bool
  provider : Provider
  payload : String
deriving Repr, DecidableEq

/-- One run of Invoke-ProviderValidation: the resulting value or the
thrown format error, plus whether an outbound provider call happened. -/
structure AdapterRun where
  result : Except String ProviderResult
  networkCalled : Bool
deriving Repr

/-- Invoke-ProviderValidation from the provider integration module:
the activation code is first matched against the provider
ValidationPattern, a mismatch throws the invalid-format error before
any network request, and only on a match does the switch dispatch to
the provider-specific network call, modelled by the oracle net. -/
def invokeProviderValidation (net : Provider → String → ProviderResult)
    (p : Provider) (code : String) : AdapterRun :=
  if validationPatternMatch p code then
    { result := Except.ok (net p code), networkCalled := true }
  else
    { result := Except.error "Invalid activation code format",
      networkCalled := false }

/-! ## DeviceMigration component -/

/-- The migration form state of the DeviceMigration component. -/
structure MigrationForm where
  sourceDeviceId : String
  targetDeviceId : String
  migrationNotes : String
deriving Repr, DecidableEq

/-- The payload that handleSubmit sends to
migrationAPI.initiateMigration. -/
structure MigrationPayload where
  profileId : String
  sourceDeviceId : String
  targetDeviceId : String
  migrationNotes : String
deriving Repr, DecidableEq

/-- Outcome of DeviceMigration handleSubmit: the early returns with an
error toast, or the API call with its payload. -/
inductive SubmitOutcome
  | rejectedMissingTarget
  | rejectedSameDevice
  | apiCallInitiated (payload : MigrationPayload)
deriving Repr, DecidableEq

/-- handleSubmit of the DeviceMigration component: a blank target
device id (after trim) is rejected first, then equal source and
target device ids are rejected, and only then is the migration API
called; a rejection makes no network request and mutates nothing. -/
def handleSubmit (profileId : String) (m : MigrationForm) : SubmitOutcome :=
  if jsTrim m.targetDeviceId = "" then .rejectedMissingTarget
  else if m.sourceDeviceId = m.targetDeviceId then .rejectedSameDevice
  else .apiCallInitiated
    { profileId := profileId,
      sourceDeviceId := m.sourceDeviceId,
      targetDeviceId := m.targetDeviceId,
      migrationNotes := m.migrationNotes }

/-- validateDeviceId of the DeviceMigration component: 8 to 64
characters from [a-zA-Z0-9-_], anchored at both ends. -/
def validateDeviceId (deviceId : String) : Bool :=
  8 ≤ deviceId.length && deviceId.length ≤ 64 &&
    deviceId.data.all fun c => isPatAlnum c || c = '-' || c = '_'

/-- The enabled state of the Initiate Migration submit button: the
source disables it while loading, while the profile status is
migrating, when the target device id is empty, or when the target
device id fails validateDeviceId. No other status value disables it. -/
def migrateButtonEnabled (isLoading : Bool) (status : String)
    (m : MigrationForm) : Bool :=
  !isLoading && status ≠ "migrating" && m.targetDeviceId ≠ "" &&
    validateDeviceId m.targetDeviceId

/-! ## QRCodeManager component -/

/-- The QR code record fetched by QRCodeManager; expiresAt is an ISO
timestamp in the source, modelled as epoch milliseconds, with a
missing or falsy field as none. -/
structure QRCodeData where
  qrData : String
  expiresAt : Option Int
deriving Repr, DecidableEq

/-- isExpired of QRCodeManager at current time now:
if (not qrData?.expiresAt) return false;
return new Date(qrData.expiresAt) < new Date();
Date comparison in JS compares the epoch-millisecond values. -/
def isExpired (qr : Option QRCodeData) (now : Int) : Bool :=
  match qr with
  | none => false
  | some q =>
    match q.expiresAt with
    | none => false
    | some e => e < now

/-! ## ListProfiles bulk delete -/

/-- A toast notification emitted during a bulk delete run. -/
inductive Toast
  | success (msg : String)
  | error (msg : String)
deriving Repr, DecidableEq

/-- One run of handleBulkDelete (ListProfiles component) against a
store of profile ids. The component maps eSIMAPI.deleteProfile over
the selected ids, so every DELETE request is issued independently
before Promise.all settles; del gives each request its outcome. The
server afterwards retains exactly the profiles whose delete did not
succeed, perItem records each requested id with its own outcome (a
success toast is shown per deleted profile by deleteProfile, an error
toast per failed request by the response interceptor), and aggregate
is the final toast of handleBulkDelete itself. -/
structure BulkDeleteRun where
  remaining : List String
  perItem : List (String × Bool)
  aggregate : Toast
deriving Repr, DecidableEq

/-- handleBulkDelete of the ListProfiles component, modelled over the
server-side store of profile ids. -/
def handleBulkDelete (store : List String) (selected : List String)
    (del : String → Bool) : BulkDeleteRun :=
  { remaining := store.filter fun id => !(selected.contains id && del id),
    perItem := selected.map fun id => (id, del id),
    aggregate :=
      if selected.all del then
        Toast.success "profiles deleted successfully"
      else Toast.error "Failed to delete some profiles" }

/-! ## Theorems -/

/-- Every required-role rank in the lookup table is at least 1, and
the fallback 999 as well. -/
theorem requiredLevel_pos (r : String) : 1 ≤ (roleHierarchy r).getD 999 := by
  unfold roleHierarchy
  by_cases h1 : r = "admin" <;> by_cases h2 : r = "operator" <;>
    by_cases h3 : r = "viewer" <;> simp [h1, h2, h3]

/-- Every user rank in the lookup table is at most 3, and the fallback
0 as well. -/
theorem userLevel_le_three (r : String) : (roleHierarchy r).getD 0 ≤ 3 := by
  unfold roleHierarchy
  by_cases h1 : r = "admin" <;> by_cases h2 : r = "operator" <;>
    by_cases h3 : r = "viewer" <;> simp [h1, h2, h3]

/-- C1: the deploy operation is accepted exactly when the profile
status is created or error; on a deployed, active or migrating
profile the deploy guard is false and the component shows the
not-deployable warning rather than silently ignoring the attempt. -/
theorem canDeploy_iff_created_or_error (p : ProfileView) :
    (canDeploy (some p) = true ↔ p.status = "created" ∨ p.status = "error") ∧
    (p.status = "deployed" ∨ p.status = "active" ∨ p.status = "migrating" →
      canDeploy (some p) = false ∧ notDeployableWarningShown p = true) := by
  constructor
  · simp [canDeploy, List.contains, List.any_cons, List.any_nil]
  · rintro (h | h | h) <;>
      simp [canDeploy, notDeployableWarningShown, h]

/-- Witness for C1 at a deployed profile. -/
theorem canDeploy_iff_created_or_error_witness :
    canDeploy (some { status := "deployed" }) = false ∧
    notDeployableWarningShown { status := "deployed" } = true :=
  (canDeploy_iff_created_or_error { status := "deployed" }).2 (Or.inl rfl)

/-- C9: hasPermission defaults to deny: it is false with no logged-in
user, false whenever the user role is outside the admin, operator,
viewer table (rank taken as 0), and false whenever the required role
is outside the table (rank taken as 999, denying even admin). -/
theorem hasPermission_default_deny (u : Actor) (r : String) :
    hasPermission none r = false ∧
    (u.role ∉ ["admin", "operator", "viewer"] →
      hasPermission (some u) r = false) ∧
    (r ∉ ["admin", "operator", "viewer"] →
      hasPermission (some u) r = false) := by
  refine ⟨rfl, ?_, ?_⟩
  · intro h
    simp only [List.mem_cons, List.not_mem_nil, or_false, not_or] at h
    obtain ⟨h1, h2, h3⟩ := h
    have hu : roleHierarchy u.role = none := by
      simp [roleHierarchy, h1, h2, h3]
    have hreq := requiredLevel_pos r
    simp only [hasPermission, hu, Option.getD_none,
      decide_eq_false_iff_not, not_le]
    omega
  · intro h
    simp only [List.mem_cons, List.not_mem_nil, or_false, not_or] at h
    obtain ⟨h1, h2, h3⟩ := h
    have hr : roleHierarchy r = none := by
      simp [roleHierarchy, h1, h2, h3]
    have huser := userLevel_le_three u.role
    simp only [hasPermission, hr, Option.getD_none,
      decide_eq_false_iff_not, not_le]
    omega

/-- Witness for C9: no user, an out-of-table user role, and an
out-of-table required role are each denied. -/
theorem hasPermission_default_deny_witness :
    hasPermission none "admin" = false ∧
    hasPermission (some { tenantId := "t1", role := "root" }) "viewer" = false ∧
    hasPermission (some { tenantId := "t1", role := "admin" }) "superuser" = false :=
  ⟨(hasPermission_default_deny { tenantId := "t1", role := "root" } "admin").1,
   (hasPermission_default_deny { tenantId := "t1", role := "root" } "viewer").2.1
     (by decide),
   (hasPermission_default_deny { tenantId := "t1", role := "admin" } "superuser").2.2
     (by decide)⟩

/-- C10: a QR code record with no expiresAt field is never considered
expired, regardless of the current time. -/
theorem isExpired_none_never_expired (s : String) (now : Int) :
    isExpired (some { qrData := s, expiresAt := none }) now = false := rfl

/-- C7 counterexample: at the exact expiresAt instant the code reports
not expired (expiry requires now to be strictly past expiresAt), so
the claim clause that isExpired becomes true at the expiresAt instant
is false at this concrete input. -/
theorem isExpired_false_at_expiry_instant :
    isExpired (some { qrData := "LPA:1$code", expiresAt := some 100 }) 100 =
      false := by decide

/-- C7 amended: for a QR code carrying an expiresAt value, isExpired
holds exactly when the current time strictly exceeds expiresAt; in
particular it is false at generation and up to and including the
expiresAt instant, and true strictly afterwards. -/
theorem isExpired_iff_now_exceeds (q : QRCodeData) (e now : Int)
    (h : q.expiresAt = some e) :
    isExpired (some q) now = true ↔ e < now := by
  simp [isExpired, h]

/-- Witness for C7: one millisecond past expiry the code is expired. -/
theorem isExpired_iff_now_exceeds_witness :
    isExpired (some { qrData := "LPA:1$code2", expiresAt := some 100 }) 101 =
      true :=
  (isExpired_iff_now_exceeds { qrData := "LPA:1$code2", expiresAt := some 100 }
    100 101 rfl).2 (by decide)

/-- C5: the adapter consults the provider local pattern first (a
network call happens exactly when the pattern matches), and a code
failing the local pattern makes validation throw the format error
immediately, with no network call, whatever the network would have
answered. -/
theorem patternMismatch_failsFast (net : Provider → String → ProviderResult)
    (p : Provider) (code : String) :
    (invokeProviderValidation net p code).networkCalled =
      validationPatternMatch p code ∧
    (validationPatternMatch p code = false →
      (invokeProviderValidation net p code).result =
        Except.error "Invalid activation code format" ∧
      (invokeProviderValidation net p code).networkCalled = false) := by
  unfold invokeProviderValidation
  constructor
  · split <;> simp_all
  · intro h
    simp [h]

/-- Witness for C5: a short malformed OOREDOO code fails the local
pattern and triggers no network call even against an
always-approving network. -/
theorem patternMismatch_failsFast_witness :
    validationPatternMatch Provider.OOREDOO "BAD" = false ∧
    (invokeProviderValidation
      (fun p _ => { success := true, provider := p, payload := "ok" })
      Provider.OOREDOO "BAD").networkCalled = false := by
  have h : validationPatternMatch Provider.OOREDOO "BAD" = false := by decide
  exact ⟨h, ((patternMismatch_failsFast
    (fun p _ => { success := true, provider := p, payload := "ok" })
    Provider.OOREDOO "BAD").2 h).2⟩

/-- C6 counterexample: a profile whose status is created (neither
deployed nor active) still has the migration submit button enabled,
and handleSubmit proceeds to the migration API call, so the clause
that migrate is only permitted from deployed or active is false at
this concrete input. -/
theorem migrate_allowed_from_created :
    migrateButtonEnabled false "created"
      { sourceDeviceId := "dev-00001", targetDeviceId := "dev-00002",
        migrationNotes := "" } = true ∧
    handleSubmit "p1"
      { sourceDeviceId := "dev-00001", targetDeviceId := "dev-00002",
        migrationNotes := "" } =
      SubmitOutcome.apiCallInitiated
        { profileId := "p1", sourceDeviceId := "dev-00001",
          targetDeviceId := "dev-00002", migrationNotes := "" } ∧
    ("created" ∉ (["deployed", "active"] : List String)) := by
  refine ⟨by decide, ?_, by decide⟩
  decide

/-- C6 amended: a migrate request with equal source and target device
ids is rejected before any API call (leaving the profile status
untouched), and the UI blocks submission while a migration is already
in progress (status migrating); migration is not otherwise restricted
by status. -/
theorem migrate_guard (profileId : String) (m : MigrationForm)
    (isLoading : Bool) (status : String) :
    (m.sourceDeviceId = m.targetDeviceId →
      ∀ pl, handleSubmit profileId m ≠ SubmitOutcome.apiCallInitiated pl) ∧
    (migrateButtonEnabled isLoading status m = true → status ≠ "migrating") := by
  constructor
  · intro h pl
    unfold handleSubmit
    split <;> simp_all
  · intro h
    simp only [migrateButtonEnabled, Bool.and_eq_true, decide_eq_true_eq,
      Bool.not_eq_true', ne_eq] at h
    exact h.1.1.2

/-- Witness for C6: the dev-1 to dev-1 migration is rejected with no
API call, and an enabled submit on a created profile shows the status
guard only excludes migrating. -/
theorem migrate_guard_witness :
    (∀ pl, handleSubmit "p1"
      { sourceDeviceId := "dev-1", targetDeviceId := "dev-1",
        migrationNotes := "" } ≠ SubmitOutcome.apiCallInitiated pl) ∧
    ("created" : String) ≠ "migrating" :=
  ⟨(migrate_guard "p1"
      { sourceDeviceId := "dev-1", targetDeviceId := "dev-1",
        migrationNotes := "" } false "created").1 rfl,
   (migrate_guard "p1"
      { sourceDeviceId := "dev-00001", targetDeviceId := "dev-00002",
        migrationNotes := "" } false "created").2 (by decide)⟩

/-- Step closure: one transition call from a status in the lifecycle
set lands back in the set. -/
theorem applyTransition_mem (s : String) (e : LifecycleEvent)
    (h : s ∈ lifecycleStatusSet) :
    applyTransition s e ∈ lifecycleStatusSet := by
  fin_cases h <;> cases e <;> decide

/-- C2: starting from any status in the enumerated lifecycle set, every
sequence of transition-function calls leaves the status in the set
(spec-modelled transition function; no call produces an out-of-set
value). -/
theorem transition_status_closed (s : String) (evs : List LifecycleEvent)
    (h : s ∈ lifecycleStatusSet) :
    evs.foldl applyTransition s ∈ lifecycleStatusSet := by
  induction evs generalizing s with
  | nil => exact h
  | cons e evs ih =>
    exact ih (applyTransition s e) (applyTransition_mem s e h)

/-- Witness for C2: a deploy, confirm, migrate, migration-failure
sequence from created stays inside the status set. -/
theorem transition_status_closed_witness :
    [LifecycleEvent.deploySuccess, LifecycleEvent.deviceConfirmsInstall,
      LifecycleEvent.migrateInitiated, LifecycleEvent.migrateFailed].foldl
      applyTransition "created" ∈ lifecycleStatusSet :=
  transition_status_closed "created"
    [LifecycleEvent.deploySuccess, LifecycleEvent.deviceConfirmsInstall,
      LifecycleEvent.migrateInitiated, LifecycleEvent.migrateFailed]
    (by decide)

/-- C3: for actors and required roles drawn from the enumerated role
set, the authorization decision is allow exactly when the actor
tenantId equals the target tenantId and the actor role rank is at
least the required role rank under admin 3 > operator 2 > viewer 1
(spec-modelled tenant check combined with the embedded
hasPermission rank table). -/
theorem authorize_iff_tenant_and_rank (actor : Actor)
    (requiredRole targetTenantId : String)
    (ha : actor.role ∈ ["admin", "operator", "viewer"])
    (hr : requiredRole ∈ ["admin", "operator", "viewer"]) :
    authorize actor requiredRole targetTenantId = true ↔
      actor.tenantId = targetTenantId ∧
        specRoleRank requiredRole ≤ specRoleRank actor.role := by
  simp only [List.mem_cons, List.not_mem_nil, or_false] at ha hr
  rcases ha with ha | ha | ha <;> rcases hr with hr | hr | hr <;>
    simp [authorize, hasPermission, roleHierarchy, specRoleRank, ha, hr]

/-- Witness for C3: an operator of tenant t1 may run a viewer-level
operation on a t1 resource. -/
theorem authorize_iff_tenant_and_rank_witness :
    authorize { tenantId := "t1", role := "operator" } "viewer" "t1" = true :=
  (authorize_iff_tenant_and_rank { tenantId := "t1", role := "operator" }
    "viewer" "t1" (by decide) (by decide)).2 ⟨rfl, by decide⟩

/-- Bridge between the Bool membership test List.contains used by the
embedded code and propositional list membership. -/
theorem contains_iff_mem (l : List String) (a : String) :
    l.contains a = true ↔ a ∈ l := List.elem_iff

/-- C8: bulk delete is independent per profile with no cross-profile
atomicity: a profile survives the run exactly when it was not a
selected profile whose own delete succeeded (so one failed delete
never blocks or rolls back another), and the outcome is recorded per
item, one entry per selected id with that id own result, not as a
single all-or-nothing verdict. -/
theorem bulkDelete_per_item (store selected : List String)
    (del : String → Bool) (id : String) :
    (id ∈ (handleBulkDelete store selected del).remaining ↔
      id ∈ store ∧ ¬(id ∈ selected ∧ del id = true)) ∧
    (handleBulkDelete store selected del).perItem.length = selected.length ∧
    (∀ i, i ∈ selected →
      (i, del i) ∈ (handleBulkDelete store selected del).perItem) := by
  refine ⟨?_, by simp [handleBulkDelete], ?_⟩
  · simp only [handleBulkDelete, List.mem_filter]
    constructor
    · rintro ⟨hs, hc⟩
      refine ⟨hs, fun hmd => ?_⟩
      rw [(contains_iff_mem selected id).2 hmd.1, hmd.2] at hc
      simp at hc
    · rintro ⟨hs, hn⟩
      refine ⟨hs, ?_⟩
      cases hcon : selected.contains id with
      | false => simp [hcon]
      | true =>
        cases hdel : del id with
        | false => simp [hcon, hdel]
        | true =>
          exact absurd ⟨(contains_iff_mem selected id).1 hcon, hdel⟩ hn
  · intro i hi
    show (i, del i) ∈ selected.map fun id => (id, del id)
    exact List.mem_map_of_mem _ hi

/-- Witness for C8: deleting a and b where only the delete of a
succeeds leaves b and c in the store and records both per-item
outcomes, a partial success. -/
theorem bulkDelete_per_item_witness :
    ("b" ∈ (handleBulkDelete ["a", "b", "c"] ["a", "b"]
      (fun id => id = "a")).remaining ↔ True) ∧
    ("b", false) ∈ (handleBulkDelete ["a", "b", "c"] ["a", "b"]
      (fun id => id = "a")).perItem :=
  ⟨Iff.intro (fun _ => trivial)
    (fun _ => (bulkDelete_per_item ["a", "b", "c"] ["a", "b"]
      (fun id => id = "a") "b").1.2 ⟨by decide, by decide⟩),
   (bulkDelete_per_item ["a", "b", "c"] ["a", "b"]
      (fun id => id = "a") "b").2.2 "b" (by decide)⟩

/-- The displayName rule: present, nonblank after trim, at most 100
characters. -/
def displayNameRuleOk (p : ProfileInput) : Bool :=
  match p.displayName with
  | none => false
  | some d => jsTrim d ≠ "" && d.length ≤ 100

/-- The activationCode rule: present and nonblank after trim. -/
def activationCodeRuleOk (p : ProfileInput) : Bool :=
  match p.activationCode with
  | none => false
  | some a => jsTrim a ≠ ""

/-- The smdpServerUrl rule: present, nonblank after trim, and accepted
by the URL parser. -/
def smdpServerUrlRuleOk (p : ProfileInput) : Bool :=
  match p.smdpServerUrl with
  | none => false
  | some u => jsTrim u ≠ "" && isValidUrl u

/-- The provider rule as the code actually enforces it: present and
nonempty; membership in the PROVIDERS set is not checked. -/
def providerRuleOk (p : ProfileInput) : Bool :=
  match p.provider with
  | none => false
  | some pr => pr ≠ ""

/-- The description rule: at most 500 characters when present. -/
def descriptionRuleOk (p : ProfileInput) : Bool :=
  match p.description with
  | none => true
  | some d => d.length ≤ 500

/-- The displayName error is absent exactly when the displayName rule
holds. -/
theorem errors_displayName_iff (p : ProfileInput) :
    (profileErrors p).displayName = none ↔ displayNameRuleOk p = true := by
  unfold profileErrors displayNameRuleOk
  cases p.displayName with
  | none => simp
  | some d =>
    by_cases h1 : jsTrim d = ""
    · simp [h1]
    · by_cases h2 : 100 < d.length
      · simp [h1, h2]
      · simp [h1, h2]
        omega

/-- The activationCode error is absent exactly when the activationCode
rule holds. -/
theorem errors_activationCode_iff (p : ProfileInput) :
    (profileErrors p).activationCode = none ↔
      activationCodeRuleOk p = true := by
  unfold profileErrors activationCodeRuleOk
  cases p.activationCode with
  | none => simp
  | some a => by_cases h1 : jsTrim a = "" <;> simp [h1]

/-- The smdpServerUrl error is absent exactly when the smdpServerUrl
rule holds. -/
theorem errors_smdpServerUrl_iff (p : ProfileInput) :
    (profileErrors p).smdpServerUrl = none ↔
      smdpServerUrlRuleOk p = true := by
  unfold profileErrors smdpServerUrlRuleOk
  cases p.smdpServerUrl with
  | none => simp
  | some u =>
    by_cases h1 : jsTrim u = "" <;> cases h2 : isValidUrl u <;>
      simp [h1, h2]

/-- The provider error is absent exactly when the provider rule
holds. -/
theorem errors_provider_iff (p : ProfileInput) :
    (profileErrors p).provider = none ↔ providerRuleOk p = true := by
  unfold profileErrors providerRuleOk
  cases p.provider with
  | none => simp
  | some pr => by_cases h1 : pr = "" <;> simp [h1]

/-- The description error is absent exactly when the description rule
holds. -/
theorem errors_description_iff (p : ProfileInput) :
    (profileErrors p).description = none ↔ descriptionRuleOk p = true := by
  unfold profileErrors descriptionRuleOk
  cases p.description with
  | none => simp
  | some d =>
    by_cases h2 : 500 < d.length
    · simp [h2]
    · simp [h2]
      omega

/-- C4 counterexample: an input whose provider is not a member of the
enumerated PROVIDERS set still validates with an empty error map, so
the claim clause that a non-member provider yields an error is false
at this concrete input. -/
theorem validateProfile_ignores_provider_membership :
    (validateProfile
      { displayName := some "Test profile", activationCode := some "CODE-1",
        smdpServerUrl := some "https://smdp.atom.com.mm",
        provider := some "NOT-A-PROVIDER",
        description := none }).isValid = true ∧
    "NOT-A-PROVIDER" ∉ PROVIDERS := by
  constructor
  · decide
  · decide

/-- C4 amended: validateProfile reports a field error exactly when the
field violates its rule, where the provider rule is only presence
(non-emptiness), not membership in the enumerated provider set; the
overall verdict is valid exactly when every rule holds. -/
theorem validateProfile_reports_field_rules (p : ProfileInput) :
    ((validateProfile p).errors.displayName = none ↔
      displayNameRuleOk p = true) ∧
    ((validateProfile p).errors.activationCode = none ↔
      activationCodeRuleOk p = true) ∧
    ((validateProfile p).errors.smdpServerUrl = none ↔
      smdpServerUrlRuleOk p = true) ∧
    ((validateProfile p).errors.provider = none ↔
      providerRuleOk p = true) ∧
    ((validateProfile p).errors.description = none ↔
      descriptionRuleOk p = true) ∧
    ((validateProfile p).isValid = true ↔
      displayNameRuleOk p = true ∧ activationCodeRuleOk p = true ∧
      smdpServerUrlRuleOk p = true ∧ providerRuleOk p = true ∧
      descriptionRuleOk p = true) := by
  refine ⟨errors_displayName_iff p, errors_activationCode_iff p,
    errors_smdpServerUrl_iff p, errors_provider_iff p,
    errors_description_iff p, ?_⟩
  have hv : (validateProfile p).isValid =
      (decide ((profileErrors p).displayName = none) &&
        decide ((profileErrors p).activationCode = none) &&
        decide ((profileErrors p).smdpServerUrl = none) &&
        decide ((profileErrors p).provider = none) &&
        decide ((profileErrors p).description = none)) := rfl
  rw [hv]
  simp only [Bool.and_eq_true, decide_eq_true_eq]
  rw [errors_displayName_iff, errors_activationCode_iff,
    errors_smdpServerUrl_iff, errors_provider_iff, errors_description_iff]
  tauto

end ESim
